import Mathlib

/-!
# Verification of the meta-recipes transaction-construction core

Shallow embedding of `src/services/near.ts` (class `BaseLogic`) and the
recipe step logic (class `Logic`, `stepTwoAction`).  String-encoded
token amounts are modelled as `Nat` (they are non-negative decimal
integers manipulated through JS `BigInt`, whose division truncates).
Asynchronous view-call results (storage balances, seed maps, access
keys, block hashes) are passed in explicitly as parameters.  A JS
`TypeError` crash is modelled by returning `none` from an
`Option`-valued function.
-/

namespace MetaRecipes

/-- `parseNearAmount "0.045"`: 45 × 10²¹ yoctoNEAR (field `FARM_STORAGE_BALANCE`). -/
def FARM_STORAGE_BALANCE : Nat := 45 * 10 ^ 21

/-- `parseNearAmount "0.005"`: 5 × 10²¹ yoctoNEAR (field `MIN_DEPOSIT_PER_TOKEN`). -/
def MIN_DEPOSIT_PER_TOKEN : Nat := 5 * 10 ^ 21

/-- `parseNearAmount "0.01"`: 10²² yoctoNEAR (field `LP_STORAGE_AMOUNT`). -/
def LP_STORAGE_AMOUNT : Nat := 10 ^ 22

/-- `parseNearAmount "0.00125"`: 125 × 10¹⁹ yoctoNEAR (field `NEW_ACCOUNT_STORAGE_COST`). -/
def NEW_ACCOUNT_STORAGE_COST : Nat := 125 * 10 ^ 19

/-- The configured ref-finance exchange contract address
(`window.nearConfig.ADDRESS_REF_EXCHANGE`, external configuration). -/
def ADDRESS_REF_EXCHANGE : String := "v2.ref-finance.near"

/-- The configured ref-finance farming contract address
(`window.nearConfig.ADDRESS_REF_FARMING`, external configuration). -/
def ADDRESS_REF_FARMING : String := "v2.ref-farming.near"

/-- `Logic.STNEAR_WNEAR_POOL_ID` in the recipe class. -/
def STNEAR_WNEAR_POOL_ID : Nat := 535

/-- Result of the `storage_balance_of` view call: `{total, available}`.
A `null` result is modelled as `none` at use sites. -/
structure StorageBalance where
  total : Nat
  available : Nat
deriving DecidableEq, Repr

/-- One `nearAPI.transactions.functionCall(method, args, gas, deposit)`
descriptor, specialised to the methods the embedded functions emit. -/
inductive Action where
  | storageDeposit (gas : Nat) (deposit : Nat)
  | ftTransferCall (receiverId : String) (amount : Nat) (msg : String) (gas : Nat) (deposit : Nat)
  | mftTransferCall (receiverId : String) (tokenId : String) (amount : Nat) (msg : String) (gas : Nat) (deposit : Nat)
  | addLiquidityCall (poolId : Nat) (amounts : List Nat) (minAmounts : List Nat) (gas : Nat) (deposit : Nat)
deriving DecidableEq, Repr

/-- A transaction before key/nonce resolution: the receiver contract
address together with the ordered action list handed to
`makeTransaction`. -/
abbrev PreTx := String × List Action

/-- `BaseLogic.roundUpToNearest`:
`rest = x % m; toAdd = rest === 0n ? 0n : m; return x - rest + toAdd`. -/
def roundUpToNearest (x m : Nat) : Nat :=
  let rest := x % m
  let toAdd := if rest = 0 then 0 else m
  x - rest + toAdd

/-- The callback of the `Array.reduce` in `calcLpSharesFromAmounts`:
`(prevValue, poolAmt, index) => { let currValue = total * lp_amounts[index] / poolAmt;
return BigInt(prevValue) < currValue ? prevValue : currValue }`.
The accumulator carries the running value together with the element index. -/
def lpSharesStep (pool_total_shares : Nat) (lp_amounts : List Nat) (acc : Nat × Nat) (poolAmt : Nat) : Nat × Nat :=
  let prevValue := acc.1
  let index := acc.2
  let currValue := pool_total_shares * lp_amounts.getD index 0 / poolAmt
  (if prevValue < currValue then prevValue else currValue, index + 1)

/-- `BaseLogic.calcLpSharesFromAmounts`.  The source calls
`pool_amounts.reduce(cb)` with NO initial value: JS then uses
`pool_amounts[0]` itself as the initial accumulator and runs the
callback from index 1 (and throws on an empty array, modelled by
`none`).  The result is the accumulated value with the 0.3% tolerance
`est * 997 / 1000` applied. -/
def calcLpSharesFromAmounts (pool_total_shares : Nat) (pool_amounts lp_amounts : List Nat) : Option Nat :=
  match pool_amounts with
  | [] => none
  | p :: ps =>
    let lp_shares_estimate := (ps.foldl (lpSharesStep pool_total_shares lp_amounts) (p, 1)).1
    some (lp_shares_estimate * 997 / 1000)

/-- The LP-share estimate as the specification states it: for each
token `i` the candidate `⌊pool_total_shares * supplied[i] / pool_amounts[i]⌋`,
the minimum candidate over all tokens, then the 0.3% haircut
`⌊min * 997 / 1000⌋`.  Written from the spec's words, to be compared
with `calcLpSharesFromAmounts` above. -/
def specLpSharesFromAmounts (pool_total_shares : Nat) (pool_amounts supplied_amounts : List Nat) : Nat :=
  let candidates := List.zipWith (fun poolAmt supplied => pool_total_shares * supplied / poolAmt)
    pool_amounts supplied_amounts
  (match candidates with
   | [] => 0
   | c :: cs => cs.foldl min c) * 997 / 1000

/-- `BaseLogic.calcMinLPAmountsOut`: per token
`exact = amount * user_shares / total_shares`, then `exact * 999 / 1000`. -/
def calcMinLPAmountsOut (user_shares total_shares : Nat) (amounts : List Nat) : List Nat :=
  amounts.map (fun amount =>
    let exact_amount := amount * user_shares / total_shares
    exact_amount * 999 / 1000)

/-- The `ft_transfer_call` deposit transaction built for one entry of
the `deposits` list in `depositTokensOnRef` (gas 150 TGas, one yocto). -/
def ftDepositTx (d : String × Nat) : PreTx :=
  (d.1, [Action.ftTransferCall ADDRESS_REF_EXCHANGE d.2 "" 150000000000000 1])

/-- `BaseLogic.depositTokensOnRef`, after the `storage_balance_of` view
call whose result is passed in as `storage_balance` (`none` = JS `null`).
`storage_needed = deposits.length * MIN_DEPOSIT_PER_TOKEN`; the guard is
`storage_balance === null || BigInt(storage_balance.available) <= storage_needed`;
inside the guard the source evaluates `BigInt(storage_balance.available)`
unconditionally, which throws a `TypeError` when `storage_balance` is
`null` — modelled by `none`.  Otherwise the function returns the
optional ref-exchange storage transaction followed by one
`ft_transfer_call` transaction per deposit. -/
def depositTokensOnRef (deposits : List (String × Nat)) (storage_balance : Option StorageBalance) :
    Option (List PreTx) :=
  let storage_needed := deposits.length * MIN_DEPOSIT_PER_TOKEN
  let guard : Bool :=
    match storage_balance with
    | none => true
    | some b => decide (b.available ≤ storage_needed)
  let refActionsOpt : Option (List Action) :=
    if guard then
      match storage_balance with
      | none => none
      | some b =>
        let amountMissing := storage_needed - b.available
        let amountToPay := roundUpToNearest amountMissing MIN_DEPOSIT_PER_TOKEN
        some [Action.storageDeposit 20000000000000 amountToPay]
    else some []
  match refActionsOpt with
  | none => none
  | some refActions =>
    some ((if refActions.length ≥ 1 then [(ADDRESS_REF_EXCHANGE, refActions)] else [])
      ++ deposits.map ftDepositTx)

/-- `BaseLogic.farmStake`, after the `storage_balance_of` view call on
the farming contract.  Guard:
`!storage_balance || BigInt(storage_balance?.available ?? "0") < FARM_STORAGE_BALANCE
|| BigInt(storage_balance?.available ?? "0") < MIN_DEPOSIT_PER_TOKEN`.
Returns the optional farming storage transaction followed by the
`mft_transfer_call` staking transaction on the exchange contract. -/
def farmStake (amount : Nat) (poolID : Nat) (storage_balance : Option StorageBalance) : List PreTx :=
  let availableOrZero :=
    match storage_balance with
    | none => 0
    | some b => b.available
  let storageActions : List Action :=
    if storage_balance = none ∨ availableOrZero < FARM_STORAGE_BALANCE ∨
        availableOrZero < MIN_DEPOSIT_PER_TOKEN then
      [Action.storageDeposit 20000000000000 FARM_STORAGE_BALANCE]
    else []
  let stakingActions : List Action :=
    [Action.mftTransferCall ADDRESS_REF_FARMING (":" ++ toString poolID) amount "" 180000000000000 1]
  (if storageActions.length > 0 then [(ADDRESS_REF_FARMING, storageActions)] else [])
    ++ [(ADDRESS_REF_EXCHANGE, stakingActions)]

/-- `BaseLogic.addLiquidity`: one `add_liquidity` action per position with
`min_amounts = amounts.map(a => a * 999n / 1000n)` (0.1% slippage), gas
100 TGas, deposit `LP_STORAGE_AMOUNT`; all actions go in a single
transaction to the exchange contract. -/
def addLiquidity (positions : List (Nat × List Nat)) : List PreTx :=
  let refActions := positions.map (fun pos =>
    let min_lp_amounts := pos.2.map (fun amount => amount * 999 / 1000)
    Action.addLiquidityCall pos.1 pos.2 min_lp_amounts 100000000000000 LP_STORAGE_AMOUNT)
  [(ADDRESS_REF_EXCHANGE, refActions)]

/-- Projection: the `min_amounts` argument of an `add_liquidity` action. -/
def minAmountsOf : Action → List Nat
  | Action.addLiquidityCall _ _ minAmounts _ _ => minAmounts
  | _ => []

/-- Result of `account.accessKeyForTransaction`: the public key and the
key's current nonce (`access_key.nonce`). -/
structure AccessKeyView where
  public_key : String
  nonce : Nat
deriving DecidableEq, Repr

/-- An unsigned transaction as produced by
`nearAPI.transactions.createTransaction`. -/
structure Transaction where
  signerId : String
  publicKey : String
  receiverId : String
  nonce : Nat
  actions : List Action
  blockHash : List Nat
deriving DecidableEq, Repr

/-- `BaseLogic.makeTransaction`.  `accessKey` is the result of the
external `accessKeyForTransaction(receiverId, actions)` lookup (`none`
when no matching key exists), `blockHash` the decoded latest final
block hash.  Throws (models `Except.error`) when no key matched;
otherwise builds the unsigned transaction with
`nonce = accessKey.access_key.nonce + nonceOffset`. -/
def makeTransaction (accountId receiverId : String) (actions : List Action)
    (accessKey : Option AccessKeyView) (blockHash : List Nat) (nonceOffset : Nat) :
    Except String Transaction :=
  match accessKey with
  | none => Except.error ("Cannot find matching key for transaction sent to " ++ receiverId)
  | some key =>
    Except.ok ⟨accountId, key.public_key, receiverId, key.nonce + nonceOffset, actions, blockHash⟩

/-- `makeTransaction` as called without the third argument: the source
declares `nonceOffset = 1` as the default parameter value. -/
def makeTransactionDefault (accountId receiverId : String) (actions : List Action)
    (accessKey : Option AccessKeyView) (blockHash : List Nat) : Except String Transaction :=
  makeTransaction accountId receiverId actions accessKey blockHash 1

/-- `BaseLogic.estimateStnearOut`:
`BigInt(price) === BigInt(0) ? "0" : parseNearAmount((Number(BigInt(amount + "0".repeat(accuracy)) / BigInt(price)) / 10 ** accuracy).toString())`.
Appending `accuracy` zero digits to the decimal string `amount` is
multiplication by `10 ^ accuracy`; the trailing float division and
`parseNearAmount` formatting are host-library floating-point behaviour,
abstracted as the formatting parameter `fmt` applied to the exact
`BigInt` quotient. -/
def estimateStnearOut (fmt : Nat → String) (amount price accuracy : Nat) : String :=
  if price = 0 then "0"
  else fmt (amount * 10 ^ accuracy / price)

/-- The JS ternary `v ? v : "0"` applied to a map lookup: an absent
entry (`undefined`) and the empty string are falsy, every other string
is returned unchanged. -/
def truthyOrZero (v : Option String) : String :=
  match v with
  | none => "0"
  | some s => if s = "" then "0" else s

/-- `BaseLogic.getFarmingStake`: looks up the key
`ADDRESS_REF_EXCHANGE@pool_id` in the `list_user_seeds` view result
(`seeds`, modelled as a partial map) and returns the entry, or "0" when
it is falsy/absent. -/
def getFarmingStake (seeds : String → Option String) (pool_id : Nat) : String :=
  truthyOrZero (seeds (ADDRESS_REF_EXCHANGE ++ "@" ++ toString pool_id))

/-- `BaseLogic.getTokenBalancesOnRef`: maps each token to its entry in
the `get_deposits` view result (`refBalances`, a partial map), or "0"
when absent/falsy. -/
def getTokenBalancesOnRef (refBalances : String → Option String) (tokens : List String) :
    List String :=
  tokens.map (fun token => truthyOrZero (refBalances token))

/-- One element of the `actions` array that `Logic.stepTwoAction` hands
to `passToWallet`: each element is a transaction-list-producing call,
tagged here with the call and its arguments. -/
inductive TxGroup where
  | depositTokensOnRef (deposits : List (String × Nat))
  | addLiquidity (positions : List (Nat × List Nat))
  | farmStakeV2 (amount : Nat) (poolID : Nat)
deriving DecidableEq, Repr

/-- Modelled from the spec: `farmStakeV2`, invoked by
`Logic.stepTwoAction`, has no body under the sources (only this call
site).  Per the spec (§4.5) it produces the farm-stake transactions
staking the given LP-share amount in the given pool's farm; we model
its contribution to the wallet hand-off as the tagged group
`TxGroup.farmStakeV2`. -/
def farmStakeV2 (amount : Nat) (poolID : Nat) : TxGroup :=
  TxGroup.farmStakeV2 amount poolID

/-- `Logic.stepTwoAction`, after `getPoolInfo` returned
`(total_shares, pool_amounts)` for pool 535.  Computes
`lpShares = calcLpSharesFromAmounts(total_shares, pool_amounts, [stnearAmount, wnearAmount])`
(error propagated as `none`), builds the deposit and add-liquidity
groups, appends the farm-stake group only under `if (this.isFarmActive)`
(the optional field is truthy exactly when it is `true`), and returns
the list handed to `passToWallet`. -/
def stepTwoAction (isFarmActive : Option Bool) (metapoolAddr wnearAddr : String)
    (total_shares : Nat) (pool_amounts : List Nat) (stnearAmount wnearAmount : Nat) :
    Option (List TxGroup) :=
  match calcLpSharesFromAmounts total_shares pool_amounts [stnearAmount, wnearAmount] with
  | none => none
  | some lpShares =>
    let base := [TxGroup.depositTokensOnRef [(metapoolAddr, stnearAmount), (wnearAddr, wnearAmount)],
                 TxGroup.addLiquidity [(STNEAR_WNEAR_POOL_ID, [stnearAmount, wnearAmount])]]
    some (if isFarmActive = some true then base ++ [farmStakeV2 lpShares STNEAR_WNEAR_POOL_ID] else base)

/-! ## Theorems -/

/-- Unfolding lemma for `roundUpToNearest`. -/
theorem roundUpToNearest_eq (x m : Nat) :
    roundUpToNearest x m = x - x % m + (if x % m = 0 then 0 else m) := rfl

/-- Claim C3: `roundUpToNearest x m` equals `x + ((m - x % m) % m)`; the
result is a multiple of `m` with `result - m < x ≤ result`; a multiple
of `m` is returned unchanged; literal cases (0,5)→0, (39,5)→40,
(40,5)→40, (41,5)→45. -/
theorem roundUpToNearest_spec (x m : Nat) (hm : 0 < m) :
    roundUpToNearest x m = x + ((m - x % m) % m) ∧
    roundUpToNearest x m % m = 0 ∧
    x ≤ roundUpToNearest x m ∧
    (roundUpToNearest x m : ℤ) - m < x ∧
    (x % m = 0 → roundUpToNearest x m = x) ∧
    roundUpToNearest 0 5 = 0 ∧ roundUpToNearest 39 5 = 40 ∧
    roundUpToNearest 40 5 = 40 ∧ roundUpToNearest 41 5 = 45 := by
  have h1 : x % m < m := Nat.mod_lt x hm
  have h2 : x % m ≤ x := Nat.mod_le x m
  have h3 : m * (x / m) + x % m = x := Nat.div_add_mod x m
  by_cases h : x % m = 0
  · refine ⟨?_, ?_, ?_, ?_, fun _ => ?_, by decide, by decide, by decide, by decide⟩
    · rw [roundUpToNearest_eq, if_pos h, h, Nat.sub_zero, Nat.sub_zero, Nat.mod_self]
    · rw [roundUpToNearest_eq, if_pos h, h, Nat.sub_zero, Nat.add_zero, h]
    · rw [roundUpToNearest_eq, if_pos h, h]; omega
    · rw [roundUpToNearest_eq, if_pos h, h]; push_cast; omega
    · rw [roundUpToNearest_eq, if_pos h, h]; omega
  · have h4 : (m - x % m) % m = m - x % m := Nat.mod_eq_of_lt (by omega)
    refine ⟨?_, ?_, ?_, ?_, fun hc => absurd hc h, by decide, by decide, by decide, by decide⟩
    · rw [roundUpToNearest_eq, if_neg h, h4]; omega
    · rw [roundUpToNearest_eq, if_neg h]
      have h5 : x - x % m + m = m * (x / m + 1) := by
        rw [Nat.mul_add, Nat.mul_one]; omega
      rw [h5, Nat.mul_mod_right]
    · rw [roundUpToNearest_eq, if_neg h]; omega
    · rw [roundUpToNearest_eq, if_neg h]; push_cast [Nat.sub_add_comm h2]; omega

/-- Witness for `roundUpToNearest_spec` at `x = 41`, `m = 5`. -/
theorem roundUpToNearest_spec_witness :
    roundUpToNearest 41 5 = 41 + ((5 - 41 % 5) % 5) ∧ roundUpToNearest 41 5 % 5 = 0 :=
  ⟨(roundUpToNearest_spec 41 5 (by decide)).1, (roundUpToNearest_spec 41 5 (by decide)).2.1⟩

/-- Claim C1 (refuted, code bug): on the specification's own example
(`pool_total_shares = 1000000`, `pool_amounts = [100, 200]`,
`supplied = [10, 20]`) the source's `calcLpSharesFromAmounts` returns
99, not the claimed 99700: the `Array.reduce` call has no initial
value, so JS seeds the running minimum with `pool_amounts[0] = 100`
itself and the token-0 candidate (100000) is never computed; the
specification formula (`specLpSharesFromAmounts`) gives 99700. -/
theorem calcLpSharesFromAmounts_spec_divergence :
    calcLpSharesFromAmounts 1000000 [100, 200] [10, 20] = some 99 ∧
    specLpSharesFromAmounts 1000000 [100, 200] [10, 20] = 99700 ∧
    calcLpSharesFromAmounts 1000000 [100, 200] [10, 20] ≠
      some (specLpSharesFromAmounts 1000000 [100, 200] [10, 20]) :=
  ⟨by decide, by decide, by decide⟩

/-- Claim C2 (refuted, code bug): with two deposits and an absent
(`null`) storage balance the claim requires a `storage_deposit` action
for the full requirement `2 × MIN_DEPOSIT_PER_TOKEN` rounded up (10²²),
but the source evaluates `BigInt(storage_balance.available)` inside the
guard and throws a `TypeError` (modelled: `none`).  With a present
balance below the requirement the emitted deposit does follow the
claimed shortfall formula (second conjunct:
available 3×10²¹, shortfall 7×10²¹, rounded up to 10²²). -/
theorem depositTokensOnRef_null_balance_crash :
    depositTokensOnRef [("dai", 1), ("usdt", 1)] none = none ∧
    depositTokensOnRef [("dai", 1), ("usdt", 1)] (some ⟨0, 3 * 10 ^ 21⟩) =
      some [(ADDRESS_REF_EXCHANGE, [Action.storageDeposit 20000000000000 (10 ^ 22)]),
            ftDepositTx ("dai", 1), ftDepositTx ("usdt", 1)] :=
  ⟨rfl, by decide⟩

/-- Claim C4 (counterexample): a balance whose `available` is exactly
the required minimum (`1 × MIN_DEPOSIT_PER_TOKEN` for one deposit) is
"at or above the required minimum", yet `depositTokensOnRef` emits a
`storage_deposit` action (with attached deposit 0) and includes the
storage transaction, because its guard uses `<=` rather than `<`. -/
theorem depositTokensOnRef_at_minimum_counterexample :
    1 * MIN_DEPOSIT_PER_TOKEN ≤ MIN_DEPOSIT_PER_TOKEN ∧
    depositTokensOnRef [("dai", 1)] (some ⟨MIN_DEPOSIT_PER_TOKEN, MIN_DEPOSIT_PER_TOKEN⟩) =
      some [(ADDRESS_REF_EXCHANGE, [Action.storageDeposit 20000000000000 0]),
            ftDepositTx ("dai", 1)] :=
  ⟨Nat.le_of_eq (Nat.one_mul _), by decide⟩

/-- Claim C4 as amended: for `depositTokensOnRef` the storage deposit
policy is idempotent only for a present balance with `available`
STRICTLY above `N × MIN_DEPOSIT_PER_TOKEN`: then zero `storage_deposit`
actions are emitted and the storage transaction is entirely omitted,
leaving exactly one `ft_transfer_call` transaction per deposit.  For
`farmStake` the claim holds as stated: `available ≥ FARM_STORAGE_BALANCE`
(which is ≥ `MIN_DEPOSIT_PER_TOKEN`) emits zero storage actions and the
returned list is just the staking transaction on the exchange. -/
theorem storage_deposit_policy_idempotent_amended :
    (∀ (deposits : List (String × Nat)) (b : StorageBalance),
      deposits.length * MIN_DEPOSIT_PER_TOKEN < b.available →
      depositTokensOnRef deposits (some b) = some (deposits.map ftDepositTx)) ∧
    (∀ (amount poolID : Nat) (b : StorageBalance),
      FARM_STORAGE_BALANCE ≤ b.available →
      farmStake amount poolID (some b) =
        [(ADDRESS_REF_EXCHANGE,
          [Action.mftTransferCall ADDRESS_REF_FARMING (":" ++ toString poolID) amount ""
            180000000000000 1])]) := by
  constructor
  · intro deposits b h
    have hng : ¬ (b.available ≤ deposits.length * MIN_DEPOSIT_PER_TOKEN) := Nat.not_le.mpr h
    simp [depositTokensOnRef, hng]
  · intro amount poolID b h
    have hmf : MIN_DEPOSIT_PER_TOKEN ≤ FARM_STORAGE_BALANCE := by
      unfold MIN_DEPOSIT_PER_TOKEN FARM_STORAGE_BALANCE; omega
    have h1 : ¬ (b.available < FARM_STORAGE_BALANCE) := Nat.not_lt.mpr h
    have h2 : ¬ (b.available < MIN_DEPOSIT_PER_TOKEN) := Nat.not_lt.mpr (le_trans hmf h)
    simp [farmStake, h1, h2]

/-- Witness for `storage_deposit_policy_idempotent_amended`: one deposit
with `available = MIN_DEPOSIT_PER_TOKEN + 1`, and a farm stake with
`available = FARM_STORAGE_BALANCE`. -/
theorem storage_deposit_policy_idempotent_amended_witness :
    depositTokensOnRef [("dai", 1)] (some ⟨0, MIN_DEPOSIT_PER_TOKEN + 1⟩) =
      some ([("dai", 1)].map ftDepositTx) ∧
    farmStake 7 535 (some ⟨0, FARM_STORAGE_BALANCE⟩) =
      [(ADDRESS_REF_EXCHANGE,
        [Action.mftTransferCall ADDRESS_REF_FARMING (":" ++ toString 535) 7 ""
          180000000000000 1])] :=
  ⟨storage_deposit_policy_idempotent_amended.1 [("dai", 1)] ⟨0, MIN_DEPOSIT_PER_TOKEN + 1⟩
      (by decide),
   storage_deposit_policy_idempotent_amended.2 7 535 ⟨0, FARM_STORAGE_BALANCE⟩ (le_refl _)⟩

/-- Claim C5: `calcMinLPAmountsOut` returns, per token,
`⌊⌊amounts[i] * user_shares / total_shares⌋ * 999 / 1000⌋`; for
`user_shares = 100`, `total_shares = 1000`, `amounts = [500, 900]` it
returns `[49, 89]`. -/
theorem calcMinLPAmountsOut_spec (user_shares total_shares : Nat) (amounts : List Nat)
    (ht : 0 < total_shares) :
    calcMinLPAmountsOut user_shares total_shares amounts =
      amounts.map (fun a => a * user_shares / total_shares * 999 / 1000) ∧
    calcMinLPAmountsOut 100 1000 [500, 900] = [49, 89] :=
  ⟨rfl, by decide⟩

/-- Witness for `calcMinLPAmountsOut_spec` at the specification's example. -/
theorem calcMinLPAmountsOut_spec_witness :
    calcMinLPAmountsOut 100 1000 [500, 900] = [49, 89] :=
  (calcMinLPAmountsOut_spec 100 1000 [500, 900] (by decide)).2

/-- Claim C6: every `add_liquidity` action emitted by `addLiquidity`
carries `min_amounts` equal to `amounts.map (a => ⌊a * 999 / 1000⌋)`
(per token, independently); an amount of 1000 yields a minimum of 999. -/
theorem addLiquidity_min_amounts_spec (positions : List (Nat × List Nat)) :
    (addLiquidity positions).map (fun tx => tx.2.map minAmountsOf) =
      [positions.map (fun pos => pos.2.map (fun a => a * 999 / 1000))] ∧
    addLiquidity [(535, [1000])] =
      [(ADDRESS_REF_EXCHANGE,
        [Action.addLiquidityCall 535 [1000] [999] 100000000000000 LP_STORAGE_AMOUNT])] := by
  constructor
  · simp [addLiquidity, minAmountsOf, List.map_map, Function.comp]
  · decide

/-- Claim C7: `makeTransaction` fails with the no-matching-key error
exactly when the access-key lookup returned nothing; otherwise it
produces an unsigned `Transaction` for the single receiver with
`nonce = access_key.nonce + nonceOffset`, and the offset-less variant
uses the default offset 1. -/
theorem makeTransaction_spec (accountId receiverId : String) (actions : List Action)
    (accessKey : Option AccessKeyView) (blockHash : List Nat) (nonceOffset : Nat) :
    ((∃ e, makeTransaction accountId receiverId actions accessKey blockHash nonceOffset =
      Except.error e) ↔ accessKey = none) ∧
    (accessKey = none →
      makeTransaction accountId receiverId actions accessKey blockHash nonceOffset =
        Except.error ("Cannot find matching key for transaction sent to " ++ receiverId)) ∧
    (∀ key, accessKey = some key →
      makeTransaction accountId receiverId actions accessKey blockHash nonceOffset =
        Except.ok ⟨accountId, key.public_key, receiverId, key.nonce + nonceOffset,
          actions, blockHash⟩) ∧
    makeTransactionDefault accountId receiverId actions accessKey blockHash =
      makeTransaction accountId receiverId actions accessKey blockHash 1 := by
  cases accessKey with
  | none => simp [makeTransaction, makeTransactionDefault]
  | some key => simp [makeTransaction, makeTransactionDefault]

/-- Witness for `makeTransaction_spec`: concrete failure with no key and
concrete success with a key of nonce 41 and offset 1 giving nonce 41 + 1. -/
theorem makeTransaction_spec_witness :
    makeTransaction "alice.near" "ref.near" [] none [] 1 =
      Except.error ("Cannot find matching key for transaction sent to " ++ "ref.near") ∧
    makeTransaction "alice.near" "ref.near" [] (some ⟨"pk", 41⟩) [] 1 =
      Except.ok ⟨"alice.near", "pk", "ref.near", 41 + 1, [], []⟩ :=
  ⟨(makeTransaction_spec "alice.near" "ref.near" [] none [] 1).2.1 rfl,
   (makeTransaction_spec "alice.near" "ref.near" [] (some ⟨"pk", 41⟩) [] 1).2.2.1 ⟨"pk", 41⟩ rfl⟩

/-- Claim C8: whenever the LP-share estimate succeeds, `stepTwoAction`
hands the wallet a farm-stake group (staking exactly the estimated LP
shares of pool 535) when and only when `isFarmActive` is `true`; when
the flag is not `true` only the token-deposit and add-liquidity groups
are handed off. -/
theorem stepTwoAction_farm_gating (isFarmActive : Option Bool) (metapoolAddr wnearAddr : String)
    (total_shares : Nat) (pool_amounts : List Nat) (stnearAmount wnearAmount lpShares : Nat)
    (hlp : calcLpSharesFromAmounts total_shares pool_amounts [stnearAmount, wnearAmount] =
      some lpShares) :
    ∃ txs, stepTwoAction isFarmActive metapoolAddr wnearAddr total_shares pool_amounts
        stnearAmount wnearAmount = some txs ∧
      ((∃ a p, TxGroup.farmStakeV2 a p ∈ txs) ↔ isFarmActive = some true) ∧
      (isFarmActive = some true →
        txs = [TxGroup.depositTokensOnRef [(metapoolAddr, stnearAmount), (wnearAddr, wnearAmount)],
               TxGroup.addLiquidity [(STNEAR_WNEAR_POOL_ID, [stnearAmount, wnearAmount])],
               TxGroup.farmStakeV2 lpShares STNEAR_WNEAR_POOL_ID]) ∧
      (isFarmActive ≠ some true →
        txs = [TxGroup.depositTokensOnRef [(metapoolAddr, stnearAmount), (wnearAddr, wnearAmount)],
               TxGroup.addLiquidity [(STNEAR_WNEAR_POOL_ID, [stnearAmount, wnearAmount])]]) := by
  by_cases hf : isFarmActive = some true
  · refine ⟨_, by simp [stepTwoAction, hlp, hf, farmStakeV2], ?_, fun _ => rfl, fun hc => absurd hf hc⟩
    simp [hf]
  · refine ⟨_, by simp [stepTwoAction, hlp, hf], ?_, fun hc => absurd hc hf, fun _ => rfl⟩
    simp [hf]

/-- Witness for `stepTwoAction_farm_gating` with the flag set, pool data
`total_shares = 1000000`, `pool_amounts = [100, 200]` and supplied
amounts 10 and 20 (estimate 99). -/
theorem stepTwoAction_farm_gating_witness :
    ∃ txs, stepTwoAction (some true) "meta-pool.near" "wrap.near" 1000000 [100, 200] 10 20 =
        some txs ∧
      ((∃ a p, TxGroup.farmStakeV2 a p ∈ txs) ↔ (some true : Option Bool) = some true) ∧
      ((some true : Option Bool) = some true →
        txs = [TxGroup.depositTokensOnRef [("meta-pool.near", 10), ("wrap.near", 20)],
               TxGroup.addLiquidity [(STNEAR_WNEAR_POOL_ID, [10, 20])],
               TxGroup.farmStakeV2 99 STNEAR_WNEAR_POOL_ID]) ∧
      ((some true : Option Bool) ≠ some true →
        txs = [TxGroup.depositTokensOnRef [("meta-pool.near", 10), ("wrap.near", 20)],
               TxGroup.addLiquidity [(STNEAR_WNEAR_POOL_ID, [10, 20])]]) :=
  stepTwoAction_farm_gating (some true) "meta-pool.near" "wrap.near" 1000000 [100, 200] 10 20 99
    (by decide)

/-- Claim C9: `estimateStnearOut` returns "0" whenever the price parses
to zero, for every amount, accuracy and host formatting behaviour, so
the division by `price` is never executed with a zero divisor. -/
theorem estimateStnearOut_zero_price (fmt : Nat → String) (amount price accuracy : Nat)
    (hp : price = 0) :
    estimateStnearOut fmt amount price accuracy = "0" := by
  simp [estimateStnearOut, hp]

/-- Witness for `estimateStnearOut_zero_price` at price 0. -/
theorem estimateStnearOut_zero_price_witness :
    estimateStnearOut (fun n => toString n) 123456 0 5 = "0" :=
  estimateStnearOut_zero_price (fun n => toString n) 123456 0 5 rfl

/-- Claim C10: `getFarmingStake` returns "0" when the seed map has no
entry for `ADDRESS_REF_EXCHANGE@pool_id`; `getTokenBalancesOnRef`
returns a list of the same length and positional order as its input
token list, with "0" at every position whose token is absent from the
deposits map. -/
theorem default_zero_balances_spec (seeds refBalances : String → Option String)
    (pool_id : Nat) (tokens : List String) :
    (seeds (ADDRESS_REF_EXCHANGE ++ "@" ++ toString pool_id) = none →
      getFarmingStake seeds pool_id = "0") ∧
    (getTokenBalancesOnRef refBalances tokens).length = tokens.length ∧
    (∀ i : Nat, (getTokenBalancesOnRef refBalances tokens)[i]? =
      tokens[i]?.map (fun t => truthyOrZero (refBalances t))) ∧
    (∀ (i : Nat) (t : String), tokens[i]? = some t → refBalances t = none →
      (getTokenBalancesOnRef refBalances tokens)[i]? = some "0") := by
  refine ⟨fun h => ?_, ?_, fun i => ?_, fun i t h1 h2 => ?_⟩
  · simp [getFarmingStake, h, truthyOrZero]
  · simp [getTokenBalancesOnRef]
  · simp [getTokenBalancesOnRef, List.getElem?_map]
  · simp [getTokenBalancesOnRef, List.getElem?_map, h1, truthyOrZero, h2]

/-- Witness for `default_zero_balances_spec`: empty seed and deposit
maps, pool 535, tokens `["dai", "usdt"]`. -/
theorem default_zero_balances_spec_witness :
    getFarmingStake (fun _ => none) 535 = "0" ∧
    (getTokenBalancesOnRef (fun _ => none) ["dai", "usdt"])[0]? = some "0" :=
  ⟨(default_zero_balances_spec (fun _ => none) (fun _ => none) 535 ["dai", "usdt"]).1 rfl,
   (default_zero_balances_spec (fun _ => none) (fun _ => none) 535 ["dai", "usdt"]).2.2.2
     0 "dai" rfl rfl⟩

end MetaRecipes
